import Mathlib

/-!
Verification of the physicsLab repository (coordinate transforms, save-file
loading and the experiment lifecycle) against its natural-language
specification.  Numeric values of the Python source (int/float) are modelled
as exact rationals; Python dicts with string keys are modelled as
insertion-ordered association lists; fallible operations return Except or
Option values.
-/

namespace PhysicsLab

/-! ## Coordinate transform (src/electricity/_elementPosition.py) -/

/-- translate, lines 20 to 26: converts element-grid coordinates to the
coordinate system supported by the application (per-axis scaling, plus a
+0.045 offset on y for big elements). -/
def translate (x y z : ℚ) (isBigElement : Bool) : ℚ × ℚ × ℚ :=
  let x := x * 0.15
  let y := y * 0.075
  let z := z * 0.1
  let y := if isBigElement then y + 0.045 else y
  (x, y, z)

/-- change, lines 29 to 35: declared by its comment as the converse
conversion, from the application coordinates back to element-grid
coordinates.  Note the order of its y steps: it divides by 0.075 first and
subtracts 0.045 afterwards. -/
def change (x y z : ℚ) (isBigElement : Bool) : ℚ × ℚ × ℚ :=
  let x := x / 0.15
  let y := y / 0.075
  let z := z / 0.1
  let y := if isBigElement then y - 0.045 else y
  (x, y, z)

/-! ## Tools (src/physicsLab/_tools.py) -/

/-- position, line 8: a plain named triple (namedtuple).  The constructor
stores the three fields verbatim; no rounding is performed. -/
structure position where
  x : ℚ
  y : ℚ
  z : ℚ
deriving DecidableEq, Repr

/-- round_data, lines 10 to 13: round a number to 4 fractional digits.
Python round on a float uses round-half-to-even on the underlying binary
value; this rational model rounds half up.  No claim settled here depends on
the direction of an exact tie. -/
def round_data (q : ℚ) : ℚ :=
  (round (q * 10000) : ℚ) / 10000

/-- roundData, lines 16 to 22, at its three-argument use in crt_element:
rounds each coordinate with round_data. -/
def roundData (x y z : ℚ) : ℚ × ℚ × ℚ :=
  (round_data x, round_data y, round_data z)

/-! ## String normalization used by crt_element -/

/-- Model of the Python str.strip method: drop whitespace from both ends. -/
def pyStrip (l : List Char) : List Char :=
  (((l.dropWhile Char.isWhitespace).reverse).dropWhile Char.isWhitespace).reverse

/-- Model of the Python str.replace method for a single-character pattern:
replace every occurrence of old by new. -/
def pyReplaceChar (old new : Char) (l : List Char) : List Char :=
  l.map (fun c => if c = old then new else c)

/-- element.py line 35: name.strip().replace(" ", "_").replace("-", "_"). -/
def pyNormalize (s : String) : String :=
  String.mk (pyReplaceChar '-' '_' (pyReplaceChar ' ' '_' (pyStrip s.data)))

/-! ## Property bags (Python dicts keyed by strings) -/

/-- A scalar or string property value, as held by the Properties bag of an
element. -/
inductive PVal where
  | num (q : ℚ)
  | str (s : String)
deriving DecidableEq, Repr

/-- Insertion-ordered string-keyed dictionary. -/
abbrev PropBag := List (String × PVal)

/-- Python dict assignment d[k] = v: overwrite the value in place when the
key exists, append a new entry otherwise. -/
def dictSet : PropBag → String → PVal → PropBag
  | [], k, v => [(k, v)]
  | (k1, v1) :: rest, k, v =>
    if k1 = k then (k, v) :: rest else (k1, v1) :: dictSet rest k v

/-- Python dict lookup d[k] as an Option. -/
def dictGet : PropBag → String → Option PVal
  | [], _ => none
  | (k1, v1) :: rest, k => if k1 = k then some v1 else dictGet rest k

/-! ## Experiment types, errors, element creation (src/physicsLab/element.py) -/

/-- The three experiment types of the enums module. -/
inductive ExperimentType where
  | Circuit
  | Celestial
  | Electromagnetism
deriving DecidableEq, Repr

/-- The error kinds raised by the code under verification. -/
inductive PLError where
  | typeError
  | fileNotFound
  | experimentOpenedError
  | experimentNotExistError
  | experimentExistError
  | invalidSavError
deriving DecidableEq, Repr

/-- A Python argument as passed to crt_element: a string, a number
(int/float), or a value of any other runtime type. -/
inductive PyArg where
  | str (s : String)
  | num (q : ℚ)
  | other
deriving DecidableEq, Repr

/-- Whether the runtime value is a string (isinstance(name, str)). -/
def PyArg.isStr : PyArg → Bool
  | .str _ => true
  | _ => false

/-- Whether the runtime value is numeric (isinstance(v, (int, float))). -/
def PyArg.isNum : PyArg → Bool
  | .num _ => true
  | _ => false

/-- The constructor selected by crt_element: either one of the dedicated
special-name constructors, or a lookup of the normalized class name in the
catalogue of the named module (the eval dispatch of lines 46, 49 and 52; the
element catalogue itself is an external collaborator). -/
inductive ElementDispatch where
  | dedicated (ctorName : String) (x y z : ℚ)
  | catalogue (moduleName : String) (className : String) (x y z : ℚ)
deriving DecidableEq, Repr

/-- crt_element, lines 16 to 54: type-check the arguments, normalize the
name, round the coordinates, then dispatch on the experiment type; inside
the Circuit branch the three special model names go to dedicated
constructors, every other name to a catalogue lookup. -/
def crt_element (experiment_type : ExperimentType) (name x y z : PyArg) :
    Except PLError ElementDispatch :=
  match name, x, y, z with
  | .str nameStr, .num xq, .num yq, .num zq =>
    let nameN := pyNormalize nameStr
    let r := roundData xq yq zq
    match experiment_type with
    | .Circuit =>
      if nameN = "555_Timer" then
        .ok (.dedicated "NE555" r.1 r.2.1 r.2.2)
      else if nameN = "8bit_Input" then
        .ok (.dedicated "eight_bit_Input" r.1 r.2.1 r.2.2)
      else if nameN = "8bit_Display" then
        .ok (.dedicated "eight_bit_Display" r.1 r.2.1 r.2.2)
      else
        .ok (.catalogue "circuit" nameN r.1 r.2.1 r.2.2)
    | .Celestial => .ok (.catalogue "celestial" nameN r.1 r.2.1 r.2.2)
    | .Electromagnetism => .ok (.catalogue "electromagnetism" nameN r.1 r.2.1 r.2.2)
  | _, _, _, _ => .error .typeError

/-! ## Loading the camera and the elements (element.py) -/

/-- An (x, y, z) numeric triple as decoded from a save file. -/
abbrev Tri := ℚ × ℚ × ℚ

/-- Swap the second and third components of a triple; this is the conversion
between the native left-handed (x, z, y) storage order and the (x, y, z)
model order. -/
def swap_yz (t : Tri) : Tri :=
  (t.1, t.2.2, t.2.1)

/-- Build a position value from a triple. -/
def posOfTri (t : Tri) : position :=
  { x := t.1, y := t.2.1, z := t.2.2 }

/-- Experiment.__load, lines 329 to 332: VisionCenter and TargetRotation are
decoded from the CameraSave string and stored as
position(temp[0], temp[2], temp[1]). -/
def load_camera (visionCenter targetRotation : Tri) : position × position :=
  ({ x := visionCenter.1, y := visionCenter.2.2, z := visionCenter.2.1 },
   { x := targetRotation.1, y := targetRotation.2.2, z := targetRotation.2.1 })

/-- One decoded element entry of a Circuit or Electromagnetism StatusSave:
ModelID, Position and Rotation in native storage order, the Properties bag
and the Identifier string. -/
structure RawElement where
  ModelID : String
  Position : Tri
  Rotation : Tri
  Properties : PropBag
  Identifier : String
deriving DecidableEq, Repr

/-- What Experiment.__load_elements produces for one Circuit element: the
coordinates passed to the element constructor, the rotation passed to
set_rotation, the resulting Properties bag and the Identifier. -/
structure CircuitLoadedElement where
  posArgs : Tri
  rotArgs : Tri
  properties : PropBag
  identifier : String
deriving DecidableEq, Repr

/-- Experiment.__load_elements, Circuit branch, lines 366 to 394.  The
destructuring x, z, y = eval(element.Position) reads the native order; the
non Simple Instrument path copies the stored Properties and then assigns
1.0 to the key 锁定; the rotation is destructured and passed to
set_rotation as rotation[0], rotation[2], rotation[1].  The properties
built by the external Simple_Instrument constructor are abstracted as the
function argument siProps. -/
def load_circuit_element (siProps : RawElement → PropBag) (e : RawElement) :
    CircuitLoadedElement :=
  let x := e.Position.1
  let z := e.Position.2.1
  let y := e.Position.2.2
  let props :=
    if e.ModelID = "Simple Instrument" then siProps e
    else dictSet e.Properties "锁定" (.num 1)
  let rotation := e.Rotation
  { posArgs := (x, y, z),
    rotArgs := (rotation.1, rotation.2.2, rotation.2.1),
    properties := props,
    identifier := e.Identifier }

/-- One decoded element entry of a Celestial StatusSave: the Model name, the
Position in native storage order, and the rest of the fields the loader
passes through untouched inside the element dict. -/
structure RawCelestialElement where
  Model : String
  Position : Tri
  Rotation : Tri
  Properties : PropBag
deriving DecidableEq, Repr

/-- What the Celestial branch of Experiment.__load_elements produces for one
element: the Model name and coordinates given to crt_element, and the data
bag, which is assigned the whole raw element dict (line 398). -/
structure CelestialLoadedElement where
  modelArg : String
  posArgs : Tri
  data : RawCelestialElement
deriving DecidableEq, Repr

/-- Experiment.__load_elements, Celestial branch, lines 366 to 368 and 396
to 398: destructure the native position order, create the element from its
Model name, then assign the raw dict to obj.data. -/
def load_celestial_element (e : RawCelestialElement) : CelestialLoadedElement :=
  let x := e.Position.1
  let z := e.Position.2.1
  let y := e.Position.2.2
  { modelArg := e.Model, posArgs := (x, y, z), data := e }

/-- Python dict .values() on an insertion-ordered mapping. -/
def dictValues (m : List (String × RawCelestialElement)) : List RawCelestialElement :=
  m.map Prod.snd

/-- element.py lines 319 to 320: for a Celestial experiment the StatusSave
Elements field is a mapping keyed by internal id; the loader normalizes it
with list(status_sav["Elements"].values()) and loads each entry. -/
def load_celestial_elements (m : List (String × RawCelestialElement)) :
    List CelestialLoadedElement :=
  (dictValues m).map load_celestial_element

/-- What the Electromagnetism branch of Experiment.__load_elements produces
for one element (lines 399 to 401): the constructor coordinates and the raw
dict assigned to obj.data. -/
structure EMLoadedElement where
  posArgs : Tri
  data : RawElement
deriving DecidableEq, Repr

/-- Experiment.__load_elements, Electromagnetism branch. -/
def load_em_element (e : RawElement) : EMLoadedElement :=
  let x := e.Position.1
  let z := e.Position.2.1
  let y := e.Position.2.2
  { posArgs := (x, y, z), data := e }

/-! ## Opening a save file (_open_sav, search_experiment) -/

/-- The decoded outer save document, reduced to the field the claims under
verification inspect. -/
structure SavDoc where
  InternalName : String
deriving DecidableEq, Repr

/-- _open_sav, lines 61 to 94.  decodeWith enc models the inner encode_sav
helper: the document obtained by reading the file with text encoding enc,
none when that raises UnicodeDecodeError or JSONDecodeError.  The chardet
library is an optional external collaborator: chardetAvailable tells
whether the import succeeds and detectedEncoding is what chardet.detect
returns for the file bytes. -/
def open_sav (decodeWith : String → Option SavDoc) (chardetAvailable : Bool)
    (detectedEncoding : String) : Except PLError SavDoc :=
  match decodeWith "utf-8" with
  | some d => .ok d
  | none =>
    if chardetAvailable then
      match decodeWith detectedEncoding with
      | some d => .ok d
      | none => .error .invalidSavError
    else
      match decodeWith "utf-8-sig" with
      | some d => .ok d
      | none =>
        match decodeWith "gbk" with
        | some d => .ok d
        | none => .error .invalidSavError

/-- search_experiment, lines 96 to 110.  savFiles lists every .sav file of
the save directory together with the outcome of _open_sav on it: none
models an InvalidSavError, which the loop catches and skips.  A file whose
decoded InternalName equals sav_name is returned; the fallthrough returns
none, modelling the (None, None) return. -/
def search_experiment (savFiles : List (String × Option SavDoc)) (sav_name : String) :
    Option (String × SavDoc) :=
  match savFiles with
  | [] => none
  | (_, none) :: rest => search_experiment rest sav_name
  | (fname, some sav) :: rest =>
    if sav.InternalName = sav_name then some (fname, sav)
    else search_experiment rest sav_name

/-! ## The experiment stack and the four open modes of Experiment.__init__ -/

/-- Model of os.path.join for one directory and one file name. -/
def pathJoin (dir fname : String) : String :=
  dir ++ "/" ++ fname

/-- Modelled from the spec: _ExperimentStack (from the _core module, which
is not part of the sources) tracks the open experiments keyed by absolute
save path; inside tests whether a path is on the stack. -/
def stackInside (stack : List String) (savPath : String) : Bool :=
  stack.contains savPath

/-- Modelled from the spec: _ExperimentStack.push adds the newly constructed
experiment, keyed by its absolute save path, to the stack. -/
def stackPush (stack : List String) (savPath : String) : List String :=
  stack ++ [savPath]

/-- Modelled from the spec: exiting an experiment removes its entry from the
process-wide stack. -/
def stackRemove (stack : List String) (savPath : String) : List String :=
  stack.filter (fun p => p ≠ savPath)

/-- Experiment.__init__, load_by_filepath branch (lines 164 to 191) plus the
shared push at line 309.  fileExists models os.path.exists on the resolved
absolute path; savOk models whether _open_sav and the template selection
succeed (false models an InvalidSavError).  The successful result is the new
stack. -/
def Experiment_init_load_by_filepath (stack : List String) (absPath : String)
    (fileExists savOk : Bool) : Except PLError (List String) :=
  if !fileExists then .error .fileNotFound
  else if stackInside stack absPath then .error .experimentOpenedError
  else if !savOk then .error .invalidSavError
  else .ok (stackPush stack absPath)

/-- Experiment.__init__, load_by_sav_name branch (lines 192 to 207) plus the
shared push at line 309.  searchResult is the file name search_experiment
returns for the requested save name, none when no file matches. -/
def Experiment_init_load_by_sav_name (stack : List String) (savDir : String)
    (searchResult : Option String) : Except PLError (List String) :=
  match searchResult with
  | none => .error .experimentNotExistError
  | some filename =>
    let savPath := pathJoin savDir filename
    if stackInside stack savPath then .error .experimentOpenedError
    else .ok (stackPush stack savPath)

/-- Experiment.__init__, load_by_plar_app branch (lines 208 to 237) plus the
shared push at line 309.  The conflict check happens before the remote
fetch; the fetch itself is an external collaborator modelled as
succeeding. -/
def Experiment_init_load_by_plar_app (stack : List String) (savDir contentId : String) :
    Except PLError (List String) :=
  let savPath := pathJoin savDir (contentId ++ ".sav")
  if stackInside stack savPath then .error .experimentOpenedError
  else .ok (stackPush stack savPath)

/-- Experiment.__init__, crt branch (lines 238 to 291) plus the shared push
at line 309.  searchResult is what search_experiment returns for the
requested name; randName models the random 34-character token of
_tools.randString used to build the new file name.  This branch performs no
stack membership check before the push. -/
def Experiment_init_crt (stack : List String) (savDir : String)
    (searchResult : Option String) (forceCrt : Bool) (randName : String) :
    Except PLError (List String) :=
  if !forceCrt && searchResult.isSome then .error .experimentExistError
  else .ok (stackPush stack (pathJoin savDir (randName ++ ".sav")))

/-! ## Scoped-resource exit (Experiment.__exit__ and experiment.__exit__) -/

/-- The observable state a with-block manipulates: the process-wide stack
and whether the experiment file has been saved during scope exit. -/
structure ScopeState where
  stack : List String
  saved : Bool
deriving DecidableEq, Repr

/-- Modelled from the spec: _Experiment.save (from the missing _core module)
re-encodes and writes the document without touching the stack entry. -/
def Experiment_save (st : ScopeState) : ScopeState :=
  { st with saved := true }

/-- Modelled from the spec: _Experiment.exit removes the stack entry (the
delete flag only affects the underlying file, not the stack). -/
def Experiment_exit (st : ScopeState) (savPath : String) : ScopeState :=
  { st with stack := stackRemove st.stack savPath }

/-- Experiment.__exit__, lines 408 to 412: only when no exception is active
and the experiment is still on the stack does it save and then exit; in
every other case the method returns without doing anything. -/
def Experiment_exit_scope (excTypeIsNone : Bool) (savPath : String)
    (st : ScopeState) : ScopeState :=
  if excTypeIsNone && stackInside st.stack savPath then
    Experiment_exit (Experiment_save st) savPath
  else st

/-- experiment.__exit__ (the deprecated context manager), lines 472 to 482:
an active exception or the is_exit flag exits immediately without saving;
otherwise it saves when write is set and delete is not, then exits. -/
def experiment_exit_scope (excTypeIsNone is_exit write delete : Bool)
    (savPath : String) (st : ScopeState) : ScopeState :=
  if !excTypeIsNone then Experiment_exit st savPath
  else if is_exit then Experiment_exit st savPath
  else if write && !delete then Experiment_exit (Experiment_save st) savPath
  else Experiment_exit st savPath

/-! ## Helper lemmas about the dictionary model -/

theorem dictGet_dictSet_same (m : PropBag) (k : String) (v : PVal) :
    dictGet (dictSet m k v) k = some v := by
  induction m with
  | nil => simp [dictSet, dictGet]
  | cons hd tl ih =>
    obtain ⟨k1, v1⟩ := hd
    by_cases h : k1 = k <;> simp [dictSet, dictGet, h, ih]

theorem dictGet_dictSet_other (m : PropBag) (k k2 : String) (v : PVal)
    (hne : k2 ≠ k) : dictGet (dictSet m k v) k2 = dictGet m k2 := by
  induction m with
  | nil => simp [dictSet, dictGet, hne.symm]
  | cons hd tl ih =>
    obtain ⟨k1, v1⟩ := hd
    by_cases h : k1 = k
    · subst h
      simp [dictSet, dictGet, hne.symm]
    · by_cases h2 : k1 = k2
      · subst h2
        simp [dictSet, dictGet, h]
      · simp [dictSet, dictGet, h, h2, ih]

/-! ## The claims -/

/-- C1: the claim states that change inverts translate for every triple and
both values of the isLarge flag, up to rounding tolerance.  The code
violates it: for a big element, change divides y by 0.075 before
subtracting the 0.045 offset that translate added after multiplying, so the
round trip of (0, 0, 0) with isLarge true returns y = 0.555 instead of 0,
far beyond any rounding tolerance; the same round trip with the flag false
is exact.  This theorem evaluates the code at that failing input. -/
theorem C1_roundtrip_fails_on_big_elements :
    change (translate 0 0 0 true).1 (translate 0 0 0 true).2.1
        (translate 0 0 0 true).2.2 true = (0, 111 / 200, 0) ∧
    (111 / 200 : ℚ) ≠ 0 ∧
    change (translate 2 3 5 false).1 (translate 2 3 5 false).2.1
        (translate 2 3 5 false).2.2 false = (2, 3, 5) := by
  refine ⟨?_, by norm_num, ?_⟩ <;> norm_num [translate, change]

/-- C4: the loader reads every native triple in (x, z, y) storage order and
swaps the second and third components: the camera VisionCenter and
TargetRotation, the position handed to every element constructor in all
three experiment types, and the rotation handed to set_rotation for circuit
elements. -/
theorem C4_loader_swaps_second_and_third :
    ∀ (visionCenter targetRotation : Tri) (siProps : RawElement → PropBag)
      (e : RawElement) (ce : RawCelestialElement),
      load_camera visionCenter targetRotation
        = (posOfTri (swap_yz visionCenter), posOfTri (swap_yz targetRotation)) ∧
      (load_circuit_element siProps e).posArgs = swap_yz e.Position ∧
      (load_circuit_element siProps e).rotArgs = swap_yz e.Rotation ∧
      (load_celestial_element ce).posArgs = swap_yz ce.Position ∧
      (load_em_element e).posArgs = swap_yz e.Position := by
  intro vc tr siProps e ce
  exact ⟨rfl, rfl, rfl, rfl, rfl⟩

/-- C5: loading a Celestial StatusSave whose Elements field is a mapping of
n entries normalizes it by taking the mapping values; the loaded sequence
has length n and its data bags are set-equal to the mapping values. -/
theorem C5_celestial_mapping_normalized :
    ∀ (m : List (String × RawCelestialElement)),
      (load_celestial_elements m).length = m.length ∧
      ∀ d : RawCelestialElement,
        (∃ le ∈ load_celestial_elements m, le.data = d) ↔ d ∈ dictValues m := by
  intro m
  constructor
  · simp [load_celestial_elements, dictValues]
  · intro d
    simp only [load_celestial_elements, load_celestial_element, dictValues,
      List.mem_map, Prod.exists]
    constructor
    · rintro ⟨le, ⟨a, ⟨a1, b, hab, rfl⟩, rfl⟩, hdata⟩
      exact ⟨a1, b, hab, hdata⟩
    · rintro ⟨a, b, hab, rfl⟩
      exact ⟨_, ⟨b, ⟨a, b, hab, rfl⟩, rfl⟩, rfl⟩

/-- C9: for every decoded circuit element whose ModelID is not
"Simple Instrument", the loaded property bag is the stored Properties with
the key 锁定 set to 1.0: the lock key reads 1.0 afterwards, every other key
is unchanged, and whenever the stored bag lacked the key or held another
value the loaded bag differs from the stored one. -/
theorem C9_lock_property_added :
    ∀ (siProps : RawElement → PropBag) (e : RawElement),
      e.ModelID ≠ "Simple Instrument" →
      (load_circuit_element siProps e).properties
          = dictSet e.Properties "锁定" (.num 1) ∧
      dictGet (load_circuit_element siProps e).properties "锁定"
          = some (.num 1) ∧
      (∀ k, k ≠ "锁定" →
        dictGet (load_circuit_element siProps e).properties k
          = dictGet e.Properties k) ∧
      (dictGet e.Properties "锁定" ≠ some (.num 1) →
        (load_circuit_element siProps e).properties ≠ e.Properties) := by
  intro siProps e h
  have hp : (load_circuit_element siProps e).properties
      = dictSet e.Properties "锁定" (.num 1) := by
    simp [load_circuit_element, h]
  refine ⟨hp, ?_, ?_, ?_⟩
  · rw [hp]
    exact dictGet_dictSet_same _ _ _
  · intro k hk
    rw [hp]
    exact dictGet_dictSet_other _ _ _ _ hk
  · intro hne heq
    exact hne (by rw [← heq, hp]; exact dictGet_dictSet_same _ _ _)

/-- A concrete Simple_Instrument property builder for the C9 witness. -/
def sampleSiProps : RawElement → PropBag := fun _ => []

/-- A concrete decoded circuit element for the C9 witness. -/
def sampleRawElement : RawElement :=
  { ModelID := "Logic Input", Position := (0, 0, 0), Rotation := (0, 0, 0),
    Properties := [("耐压", .num 3)], Identifier := "abc" }

/-- Witness for C9 at a concrete decoded element. -/
theorem C9_lock_property_added_witness :
    dictGet (load_circuit_element sampleSiProps sampleRawElement).properties "锁定"
      = some (.num 1) :=
  (C9_lock_property_added sampleSiProps sampleRawElement (by decide)).2.1

/-- C10: search_experiment silently skips a save file that fails to decode
(the InvalidSavError case) and continues with the remaining files, and it
returns the empty result exactly when no readable file has a matching
InternalName. -/
theorem C10_search_skips_invalid_savs :
    ∀ (sav_name fname : String) (rest savFiles : List (String × Option SavDoc)),
      search_experiment ((fname, none) :: rest) sav_name
        = search_experiment rest sav_name ∧
      (search_experiment savFiles sav_name = none ↔
        ∀ fname2 sav, (fname2, some sav) ∈ savFiles →
          sav.InternalName ≠ sav_name) := by
  intro sav_name fname rest savFiles
  refine ⟨rfl, ?_⟩
  induction savFiles with
  | nil => simp [search_experiment]
  | cons hd tl ih =>
    obtain ⟨fn2, r⟩ := hd
    cases r with
    | none => simpa [search_experiment] using ih
    | some sav =>
      by_cases h : sav.InternalName = sav_name
      · simp [search_experiment, h]
        exact ⟨fn2, sav, Or.inl ⟨rfl, rfl⟩, h⟩
      · simp only [search_experiment, if_neg h]
        rw [ih]
        constructor
        · intro H fn3 sav3 hmem
          rcases List.mem_cons.mp hmem with heq | hmem2
          · have h2 : sav3 = sav := Option.some.inj (congrArg Prod.snd heq)
            subst h2
            exact h
          · exact H fn3 sav3 hmem2
        · intro H fn3 sav3 hmem
          exact H fn3 sav3 (List.mem_cons_of_mem _ hmem)

/-- C6: _open_sav attempts strict utf-8 first (a successful utf-8 decode is
returned unchanged); it raises InvalidSavError exactly when utf-8 fails and
every fallback fails too, the fallbacks being the encoding chardet detects
when that library is importable and the fixed list utf-8-sig, gbk
otherwise; and InvalidSavError is the only error it raises. -/
theorem C6_open_sav_encoding_fallbacks :
    ∀ (decodeWith : String → Option SavDoc) (chardetAvailable : Bool)
      (detectedEncoding : String),
      (∀ d, decodeWith "utf-8" = some d →
        open_sav decodeWith chardetAvailable detectedEncoding = .ok d) ∧
      (open_sav decodeWith chardetAvailable detectedEncoding
          = .error .invalidSavError ↔
        decodeWith "utf-8" = none ∧
          (if chardetAvailable then decodeWith detectedEncoding = none
           else decodeWith "utf-8-sig" = none ∧ decodeWith "gbk" = none)) ∧
      (∀ e, open_sav decodeWith chardetAvailable detectedEncoding = .error e →
        e = .invalidSavError) := by
  intro dec ca det
  refine ⟨?_, ?_, ?_⟩
  · intro d h
    simp [open_sav, h]
  · cases h1 : dec "utf-8" with
    | some d => simp [open_sav, h1]
    | none =>
      cases ca with
      | true =>
        cases h2 : dec det with
        | some d => simp [open_sav, h1, h2]
        | none => simp [open_sav, h1, h2]
      | false =>
        cases h2 : dec "utf-8-sig" with
        | some d => simp [open_sav, h1, h2]
        | none =>
          cases h3 : dec "gbk" with
          | some d => simp [open_sav, h1, h2, h3]
          | none => simp [open_sav, h1, h2, h3]
  · intro e he
    cases h1 : dec "utf-8" with
    | some d => simp [open_sav, h1] at he
    | none =>
      cases ca with
      | true =>
        cases h2 : dec det with
        | some d => simp [open_sav, h1, h2] at he
        | none =>
          simp [open_sav, h1, h2] at he
          exact he.symm
      | false =>
        cases h2 : dec "utf-8-sig" with
        | some d => simp [open_sav, h1, h2] at he
        | none =>
          cases h3 : dec "gbk" with
          | some d => simp [open_sav, h1, h2, h3] at he
          | none =>
            simp [open_sav, h1, h2, h3] at he
            exact he.symm

/-- C7 counterexample: the claim states that every position value has each
coordinate rounded to 4 fractional digits on construction.  The position
namedtuple performs no rounding: the VisionCenter position the loader
constructs from a camera triple with x = 0.012345 keeps all six fractional
digits, although round_data would change it. -/
theorem C7_position_unrounded_counterexample :
    (load_camera ((12345 : ℚ) / 1000000, 0, 0) (0, 0, 0)).1.x
        = (12345 : ℚ) / 1000000 ∧
    round_data ((12345 : ℚ) / 1000000) ≠ (12345 : ℚ) / 1000000 := by
  constructor
  · rfl
  · norm_num [round_data, round_eq]

/-- C7 amended: the position namedtuple stores its three coordinates
verbatim, with no rounding on construction.  Rounding to exactly 4
fractional digits is instead performed by round_data (whose result is
always an integer multiple of 1/10000), which crt_element applies through
roundData to the coordinates of every element it creates before dispatch. -/
theorem C7_rounding_amended :
    ∀ (x y z : ℚ),
      (position.mk x y z).x = x ∧
      (position.mk x y z).y = y ∧
      (position.mk x y z).z = z ∧
      (∃ n : ℤ, round_data x = (n : ℚ) / 10000) ∧
      roundData x y z = (round_data x, round_data y, round_data z) ∧
      crt_element .Circuit (.str "Logic_Input") (.num x) (.num y) (.num z)
        = .ok (.catalogue "circuit" "Logic_Input"
            (round_data x) (round_data y) (round_data z)) := by
  intro x y z
  have h1 : pyNormalize "Logic_Input" = "Logic_Input" := by decide
  refine ⟨rfl, rfl, rfl, ⟨round (x * 10000), rfl⟩, rfl, ?_⟩
  simp only [crt_element, h1, roundData]
  rw [if_neg (by decide), if_neg (by decide), if_neg (by decide)]

/-- C8 counterexample: the claim states that the special model name
555_Timer always dispatches to a dedicated constructor.  In a Celestial
experiment it goes through the ordinary catalogue lookup instead: the
special-name tests only exist inside the Circuit branch of crt_element. -/
theorem C8_celestial_special_name_counterexample :
    crt_element .Celestial (.str "555_Timer") (.num 0) (.num 0) (.num 0)
      = .ok (.catalogue "celestial" "555_Timer" 0 0 0) ∧
    crt_element .Celestial (.str "555_Timer") (.num 0) (.num 0) (.num 0)
      ≠ .ok (.dedicated "NE555" 0 0 0) := by
  have h0 : round_data 0 = 0 := by simp [round_data]
  have h1 : pyNormalize "555_Timer" = "555_Timer" := by decide
  constructor
  · simp [crt_element, h1, roundData, h0]
  · simp [crt_element, h1, roundData, h0]

/-- C8 amended: crt_element raises a type error exactly when the name is
not a string or a coordinate is not numeric; with valid arguments it
normalizes the name (trim, spaces and hyphens to underscores), rounds the
coordinates, and dispatches: within a Circuit experiment the three special
model names 555_Timer, 8bit_Input and 8bit_Display select dedicated
constructors and every other name a catalogue lookup by normalized name,
while Celestial and Electromagnetism experiments always use the catalogue
lookup of their own module, even for the special names. -/
theorem C8_dispatch_amended :
    ∀ (ty : ExperimentType) (nameStr : String) (x y z : ℚ) (a b c d : PyArg),
      (crt_element .Circuit (.str nameStr) (.num x) (.num y) (.num z)
        = .ok
          (if pyNormalize nameStr = "555_Timer" then
            .dedicated "NE555" (round_data x) (round_data y) (round_data z)
          else if pyNormalize nameStr = "8bit_Input" then
            .dedicated "eight_bit_Input" (round_data x) (round_data y) (round_data z)
          else if pyNormalize nameStr = "8bit_Display" then
            .dedicated "eight_bit_Display" (round_data x) (round_data y) (round_data z)
          else
            .catalogue "circuit" (pyNormalize nameStr)
              (round_data x) (round_data y) (round_data z))) ∧
      (crt_element .Celestial (.str nameStr) (.num x) (.num y) (.num z)
        = .ok (.catalogue "celestial" (pyNormalize nameStr)
            (round_data x) (round_data y) (round_data z))) ∧
      (crt_element .Electromagnetism (.str nameStr) (.num x) (.num y) (.num z)
        = .ok (.catalogue "electromagnetism" (pyNormalize nameStr)
            (round_data x) (round_data y) (round_data z))) ∧
      (crt_element ty a b c d = .error .typeError ↔
        (a.isStr && b.isNum && c.isNum && d.isNum) = false) := by
  intro ty nameStr x y z a b c d
  refine ⟨?_, rfl, rfl, ?_⟩
  · simp only [crt_element, roundData]
    split_ifs <;> rfl
  · cases a <;> cases b <;> cases c <;> cases d <;> cases ty <;>
      simp [crt_element, PyArg.isStr, PyArg.isNum] <;>
      (try (split_ifs <;> simp))

/-- C2 counterexample: the claim states that all four open modes raise the
already-open conflict error when the resolved save path is on the stack.
The crt branch performs no such check: with the path saves/a.sav already on
the stack and the random token resolving to the same name, construction
succeeds and pushes a duplicate entry instead of raising
ExperimentOpenedError. -/
theorem C2_crt_no_conflict_check_counterexample :
    stackInside ["saves/a.sav"] (pathJoin "saves" ("a" ++ ".sav")) = true ∧
    Experiment_init_crt ["saves/a.sav"] "saves" none false "a"
      ≠ .error .experimentOpenedError ∧
    Experiment_init_crt ["saves/a.sav"] "saves" none false "a"
      = .ok ["saves/a.sav", "saves/a.sav"] := by
  refine ⟨by decide, ?_, ?_⟩
  · simp [Experiment_init_crt]
  · simp [Experiment_init_crt, stackPush, pathJoin]

/-- C2 amended: the three load modes (by filepath, by save name, by plar
app id) raise ExperimentOpenedError when the resolved absolute path is
already on the stack, and when they succeed the path was not on the stack
and the new experiment has been pushed; the crt mode pushes its freshly
generated random path without any conflict check. -/
theorem C2_conflict_check_amended :
    ∀ (stack newStack : List String)
      (absPath savDir filename contentId randName : String)
      (fileExists savOk forceCrt : Bool) (searchResult : Option String),
      (stackInside stack absPath = true →
        Experiment_init_load_by_filepath stack absPath true savOk
          = .error .experimentOpenedError) ∧
      (Experiment_init_load_by_filepath stack absPath fileExists savOk
          = .ok newStack →
        stackInside stack absPath = false ∧ newStack = stackPush stack absPath) ∧
      (stackInside stack (pathJoin savDir filename) = true →
        Experiment_init_load_by_sav_name stack savDir (some filename)
          = .error .experimentOpenedError) ∧
      (Experiment_init_load_by_sav_name stack savDir searchResult = .ok newStack →
        ∃ fn, searchResult = some fn ∧
          stackInside stack (pathJoin savDir fn) = false ∧
          newStack = stackPush stack (pathJoin savDir fn)) ∧
      (stackInside stack (pathJoin savDir (contentId ++ ".sav")) = true →
        Experiment_init_load_by_plar_app stack savDir contentId
          = .error .experimentOpenedError) ∧
      (Experiment_init_load_by_plar_app stack savDir contentId = .ok newStack →
        stackInside stack (pathJoin savDir (contentId ++ ".sav")) = false ∧
          newStack = stackPush stack (pathJoin savDir (contentId ++ ".sav"))) ∧
      (Experiment_init_crt stack savDir searchResult forceCrt randName
          = .ok newStack →
        newStack = stackPush stack (pathJoin savDir (randName ++ ".sav"))) := by
  intro stack newStack absPath savDir filename contentId randName
  intro fileExists savOk forceCrt searchResult
  refine ⟨?_, ?_, ?_, ?_, ?_, ?_, ?_⟩
  · intro h
    simp [Experiment_init_load_by_filepath, h]
  · intro h
    cases fileExists with
    | false => simp [Experiment_init_load_by_filepath] at h
    | true =>
      cases hin : stackInside stack absPath with
      | true => simp [Experiment_init_load_by_filepath, hin] at h
      | false =>
        cases savOk with
        | false => simp [Experiment_init_load_by_filepath, hin] at h
        | true =>
          simp [Experiment_init_load_by_filepath, hin] at h
          exact ⟨by simp [hin], h.symm⟩
  · intro h
    simp [Experiment_init_load_by_sav_name, h]
  · intro h
    cases searchResult with
    | none => simp [Experiment_init_load_by_sav_name] at h
    | some fn =>
      cases hin : stackInside stack (pathJoin savDir fn) with
      | true => simp [Experiment_init_load_by_sav_name, hin] at h
      | false =>
        simp [Experiment_init_load_by_sav_name, hin] at h
        exact ⟨fn, rfl, by simp [hin], h.symm⟩
  · intro h
    simp [Experiment_init_load_by_plar_app, h]
  · intro h
    cases hin : stackInside stack (pathJoin savDir (contentId ++ ".sav")) with
    | true => simp [Experiment_init_load_by_plar_app, hin] at h
    | false =>
      simp [Experiment_init_load_by_plar_app, hin] at h
      exact ⟨by simp [hin], h.symm⟩
  · intro h
    cases forceCrt with
    | true =>
      simp [Experiment_init_crt] at h
      exact h.symm
    | false =>
      cases searchResult with
      | none =>
        simp [Experiment_init_crt] at h
        exact h.symm
      | some fn => simp [Experiment_init_crt] at h

/-- C3 counterexample: the claim states that the stack entry is always
removed by the time a with-block scope is left, also when it is left via an
error.  Experiment.__exit__ with an active exception does nothing: the
experiment p.sav stays on the stack and nothing is saved. -/
theorem C3_error_exit_keeps_stack_counterexample :
    Experiment_exit_scope false "p.sav" { stack := ["p.sav"], saved := false }
      = { stack := ["p.sav"], saved := false } ∧
    stackInside ["p.sav"] "p.sav" = true := by
  refine ⟨by decide, by decide⟩

/-- C3 amended: for Experiment used as a scoped resource, leaving the scope
without an error and without a prior explicit exit saves and then exits
(the stack entry is removed); leaving it without an error after an explicit
exit does nothing; but leaving it via an error does nothing at all, so the
save is skipped and the stack entry is NOT removed.  Only the deprecated
experiment context manager removes the entry in every case: on an error or
with is_exit set it exits without saving, and otherwise it saves exactly
when write is set and delete is not, then exits. -/
theorem C3_scope_exit_amended :
    ∀ (savPath : String) (st : ScopeState) (is_exit write delete : Bool),
      (stackInside st.stack savPath = true →
        Experiment_exit_scope true savPath st
          = { stack := stackRemove st.stack savPath, saved := true }) ∧
      (stackInside st.stack savPath = false →
        Experiment_exit_scope true savPath st = st) ∧
      Experiment_exit_scope false savPath st = st ∧
      experiment_exit_scope false is_exit write delete savPath st
        = { stack := stackRemove st.stack savPath, saved := st.saved } ∧
      experiment_exit_scope true is_exit write delete savPath st
        = { stack := stackRemove st.stack savPath,
            saved := st.saved || (!is_exit && (write && !delete)) } := by
  intro savPath st is_exit write delete
  refine ⟨?_, ?_, ?_, ?_, ?_⟩
  · intro h
    simp [Experiment_exit_scope, h, Experiment_exit, Experiment_save]
  · intro h
    simp [Experiment_exit_scope, h]
  · simp [Experiment_exit_scope]
  · simp [experiment_exit_scope, Experiment_exit]
  · cases is_exit <;> cases write <;> cases delete <;>
      simp [experiment_exit_scope, Experiment_exit, Experiment_save]

end PhysicsLab
